import Mathlib

/-!
Shallow embedding of `src/src/App.tsx` (a React weather-lookup widget) and
proofs about it.

JavaScript numbers are modelled as exact rationals (`Rat`); integer-valued
fields (weather codes, the `is_day` flag) as `Int`.  The component's five
`useState` cells become the fields of `AppState`.  The async `getWeather`
handler becomes a pure transition function over an explicit network
environment `Net`: each `fetch`+`json()` step either yields a parsed response
or throws (modelled as `Except.error ()`, landing in the `catch` branch).
Field accesses on a possibly-absent object (`weatherData.hourly.…`,
`currentWeather.temperature`) throw a TypeError in JavaScript when the object
is `undefined`; those objects are therefore `Option`-valued in the response
model and the `none` cases route to the `catch` branch exactly as the source
does.  The transition function also records the HTTP requests issued and
whether the loading flag was ever raised, so that claims about network calls
and the loading state can be stated.
-/

namespace WeatherApp

/-- The `WeatherData` interface (App.tsx lines 3-12): the snapshot stored in
the `weather` state cell. -/
structure WeatherData where
  city : String
  country : String
  temperature : Rat
  weatherCode : Int
  windSpeed : Rat
  humidity : Rat
  precipitation : Rat
  isDay : Int
deriving Repr, DecidableEq

/-- The static code-to-label table inside `getWeatherCode`
(App.tsx lines 22-44), in source order. -/
def weatherCodes : List (Int × String) :=
  [(0, "Clear sky"),
   (1, "Mainly clear"),
   (2, "Partly cloudy"),
   (3, "Overcast"),
   (45, "Fog"),
   (48, "Depositing rime fog"),
   (51, "Light drizzle"),
   (53, "Moderate drizzle"),
   (55, "Dense drizzle"),
   (61, "Slight rain"),
   (63, "Moderate rain"),
   (65, "Heavy rain"),
   (71, "Slight snow fall"),
   (73, "Moderate snow fall"),
   (75, "Heavy snow fall"),
   (80, "Slight rain showers"),
   (81, "Moderate rain showers"),
   (82, "Violent rain showers"),
   (95, "Thunderstorm"),
   (96, "Thunderstorm with hail"),
   (99, "Thunderstorm with heavy hail")]

/-- `getWeatherCode` (App.tsx lines 21-46): `weatherCodes[code] || "Unknown"`.
A missing key yields `undefined`, hence `"Unknown"`; every stored label is a
non-empty (truthy) string, so on present keys `||` returns the label itself,
which `Option.getD` reproduces. -/
def getWeatherCode (code : Int) : String :=
  (weatherCodes.lookup code).getD "Unknown"

/-- `convertTemp` (App.tsx lines 48-50).  In the source it closes over the
`isCelsius` state cell; here that cell is an explicit argument.
JavaScript evaluates `(tempC * 9/5) + 32` as `((tempC * 9) / 5) + 32`,
which is what `tempC * 9 / 5 + 32` parses to. -/
def convertTemp (isCelsius : Bool) (tempC : Rat) : Rat :=
  if isCelsius then tempC else tempC * 9 / 5 + 32

/-- JavaScript `Math.round`: rounds to the nearest integer, halves toward
positive infinity, i.e. `⌊x + 1/2⌋`. -/
def jsRound (x : Rat) : Int :=
  Rat.floor (x + 1 / 2)

/-- The rendered temperature (App.tsx line 200):
`Math.round(convertTemp(weather.temperature))`. -/
def displayedTemp (isCelsius : Bool) (w : WeatherData) : Int :=
  jsRound (convertTemp isCelsius w.temperature)

/-- One geocoding candidate, as destructured on App.tsx line 74. -/
structure GeoResult where
  latitude : Rat
  longitude : Rat
  name : String
  country : String
deriving Repr, DecidableEq

/-- Parsed geocoding response body.  `results := none` models a JSON body
without a `results` field; the source treats absent and empty alike
(line 67: `!geoData.results || geoData.results.length === 0`). -/
structure GeoResponse where
  results : Option (List GeoResult)
deriving Repr, DecidableEq

/-- The `current_weather` object of the forecast response
(fields read on App.tsx lines 90-95). -/
structure CurrentWeather where
  temperature : Rat
  weathercode : Int
  windspeed : Rat
  is_day : Int
deriving Repr, DecidableEq

/-- The `hourly` object of the forecast response with both arrays present.
An element `none` models a hole (`undefined`/`null`), which is falsy and so
turned into `0` by `|| 0`; a stored number `r` satisfies `r || 0 = r` except
at `r = 0`, where both sides are `0`, so `Option.getD _ 0` is exact. -/
structure Hourly where
  relative_humidity_2m : List (Option Rat)
  precipitation_probability : List (Option Rat)
deriving Repr, DecidableEq

/-- Parsed forecast response body.  `current_weather := none` or
`hourly := none` models a body where that object (or, for `hourly`, one of
its arrays) is missing: the source then dereferences `undefined`
(lines 84-85 and 90), throwing a TypeError that lands in the `catch`. -/
structure WeatherResponse where
  current_weather : Option CurrentWeather
  hourly : Option Hourly
deriving Repr, DecidableEq

/-- A character `encodeURIComponent` leaves unescaped:
ASCII alphanumerics and `- _ . ! ~ * ' ( )` (given by code point). -/
def isUnreservedChar (c : Char) : Bool :=
  let n := c.toNat
  (65 ≤ n && n ≤ 90) || (97 ≤ n && n ≤ 122) || (48 ≤ n && n ≤ 57) ||
    n == 45 || n == 95 || n == 46 || n == 33 || n == 126 ||
    n == 42 || n == 39 || n == 40 || n == 41

/-- Uppercase hexadecimal digit for `n < 16`. -/
def hexDigitChar (n : Nat) : Char :=
  if n < 10 then Char.ofNat (48 + n) else Char.ofNat (55 + n)

/-- UTF-8 byte sequence of a code point. -/
def utf8Bytes (n : Nat) : List Nat :=
  if n < 128 then [n]
  else if n < 2048 then [192 + n / 64, 128 + n % 64]
  else if n < 65536 then [224 + n / 4096, 128 + n / 64 % 64, 128 + n % 64]
  else [240 + n / 262144, 128 + n / 4096 % 64, 128 + n / 64 % 64, 128 + n % 64]

/-- Percent-escape of one byte, e.g. `%20` (code point 37 is the percent
sign). -/
def percentByte (b : Nat) : String :=
  String.mk [Char.ofNat 37, hexDigitChar (b / 16), hexDigitChar (b % 16)]

/-- JavaScript `encodeURIComponent`: unreserved characters pass through,
every other character is UTF-8 percent-encoded. -/
def encodeURIComponent (s : String) : String :=
  String.join (s.data.map fun c =>
    if isUnreservedChar c then String.mk [c]
    else String.join ((utf8Bytes c.toNat).map percentByte))

/-- The geocoding request URL (App.tsx line 63), built from the raw `city`
state via `encodeURIComponent`. -/
def geocodeUrl (city : String) : String :=
  "https://geocoding-api.open-meteo.com/v1/search?name=" ++
    encodeURIComponent city

/-- An HTTP request issued by `getWeather`.  The geocoding request is kept as
its full URL; the forecast request (App.tsx line 77) is kept as the
latitude/longitude interpolated into it. -/
inductive Request where
  | geocode (url : String)
  | forecast (latitude longitude : Rat)
deriving Repr, DecidableEq

/-- The environment `getWeather` runs against: the outcome of the geocoding
fetch, the outcome of the forecast fetch as a function of the requested
coordinates (`Except.error ()` models a thrown network/JSON exception), and
`new Date().getHours()`, which is an hour of day 0-23. -/
structure Net where
  geo : Except Unit GeoResponse
  forecast : Rat → Rat → Except Unit WeatherResponse
  currentHour : Fin 24

/-- The five `useState` cells of `App` (App.tsx lines 15-19). -/
structure AppState where
  city : String
  weather : Option WeatherData
  error : String
  loading : Bool
  isCelsius : Bool
deriving Repr, DecidableEq

/-- Outcome of one `getWeather` run: the state after the handler (and its
`finally`) completed, the requests issued in order, and whether
`setLoading(true)` was ever executed. -/
structure RunResult where
  final : AppState
  requests : List Request
  enteredLoading : Bool

/-- `arr[h] || 0` on a modelled hourly array: out-of-range indices give
`undefined` (`none` here), holes give `none`, both collapse to `0` via
`Option.getD` at the use site. -/
def hourlyAt (xs : List (Option Rat)) (h : Nat) : Option Rat :=
  (xs.get? h).join

/-- JavaScript `String.prototype.trim` (App.tsx line 53): the string with
leading and trailing whitespace removed. -/
def jsTrim (s : String) : String :=
  String.mk
    (((s.data.dropWhile Char.isWhitespace).reverse.dropWhile
        Char.isWhitespace).reverse)

def emptyInputMsg : String := "Please enter a city name"

def cityNotFoundMsg : String := "City not found!"

def fetchErrorMsg : String := "Error fetching weather data. Please try again."

/-- `getWeather` (App.tsx lines 52-105) as a pure transition.  Mirrors the
source exactly: the empty-input guard returns early (setting only the error
message), otherwise `loading` is raised and `error` cleared, the geocoding
response is checked for an absent/empty result list, the first candidate's
coordinates drive the forecast request, hourly values are indexed by the
current hour with `|| 0` defaults, and any thrown exception is caught,
setting the generic error and clearing the snapshot; `finally` always lowers
`loading`. -/
def getWeather (st : AppState) (net : Net) : RunResult :=
  if jsTrim st.city = "" then
    { final := { st with error := emptyInputMsg },
      requests := [], enteredLoading := false }
  else
    let st1 : AppState := { st with loading := true, error := "" }
    let geoReq : Request := Request.geocode (geocodeUrl st.city)
    match net.geo with
    | Except.error _ =>
        { final := { st1 with error := fetchErrorMsg, weather := none,
                              loading := false },
          requests := [geoReq], enteredLoading := true }
    | Except.ok geoData =>
        match geoData.results with
        | none =>
            { final := { st1 with error := cityNotFoundMsg, weather := none,
                                  loading := false },
              requests := [geoReq], enteredLoading := true }
        | some [] =>
            { final := { st1 with error := cityNotFoundMsg, weather := none,
                                  loading := false },
              requests := [geoReq], enteredLoading := true }
        | some (first :: _) =>
            let fReq : Request := Request.forecast first.latitude first.longitude
            match net.forecast first.latitude first.longitude with
            | Except.error _ =>
                { final := { st1 with error := fetchErrorMsg, weather := none,
                                      loading := false },
                  requests := [geoReq, fReq], enteredLoading := true }
            | Except.ok weatherData =>
                match weatherData.hourly, weatherData.current_weather with
                | some hourly, some currentWeather =>
                    let currentHour : Nat := net.currentHour.val
                    let humidity : Rat :=
                      (hourlyAt hourly.relative_humidity_2m currentHour).getD 0
                    let precipitation : Rat :=
                      (hourlyAt hourly.precipitation_probability currentHour).getD 0
                    let snapshot : WeatherData :=
                      { city := first.name,
                        country := first.country,
                        temperature := currentWeather.temperature,
                        weatherCode := currentWeather.weathercode,
                        windSpeed := currentWeather.windspeed,
                        humidity := humidity,
                        precipitation := precipitation,
                        isDay := currentWeather.is_day }
                    { final := { st1 with loading := false,
                                          weather := some snapshot },
                      requests := [geoReq, fReq], enteredLoading := true }
                | _, _ =>
                    { final := { st1 with error := fetchErrorMsg,
                                          weather := none, loading := false },
                      requests := [geoReq, fReq], enteredLoading := true }

/-- The unit-toggle click handlers (App.tsx lines 205 and 219):
`setIsCelsius(b)` leaves every other state cell untouched. -/
def setCelsius (b : Bool) (st : AppState) : AppState :=
  { st with isCelsius := b }

/-! ### Concrete sample inputs, used to instantiate the theorems below -/

/-- A state whose input field holds a valid city name. -/
def sampleState : AppState :=
  { city := "Paris", weather := none, error := "", loading := false,
    isCelsius := true }

/-- One geocoding candidate for the sample city. -/
def parisCandidate : GeoResult :=
  { latitude := 48, longitude := 2, name := "Paris", country := "France" }

/-- A geocoding response carrying the single sample candidate. -/
def sampleGeo : GeoResponse :=
  { results := some [parisCandidate] }

/-- Sample current-conditions object. -/
def sampleCW : CurrentWeather :=
  { temperature := 20, weathercode := 3, windspeed := 10, is_day := 1 }

/-- Sample hourly arrays with data for hour 0 only. -/
def sampleHourly : Hourly :=
  { relative_humidity_2m := [some 80], precipitation_probability := [some 10] }

/-- A well-formed forecast response. -/
def sampleForecast : WeatherResponse :=
  { current_weather := some sampleCW, hourly := some sampleHourly }

/-- A network where both steps succeed. -/
def sampleNet : Net :=
  { geo := Except.ok sampleGeo, forecast := fun _ _ => Except.ok sampleForecast,
    currentHour := 0 }

/-- A network whose geocoding step returns an empty candidate list. -/
def emptyResultsNet : Net :=
  { geo := Except.ok { results := some [] },
    forecast := fun _ _ => Except.error (), currentHour := 0 }

/-- A network whose geocoding fetch throws. -/
def failingNet : Net :=
  { geo := Except.error (), forecast := fun _ _ => Except.error (),
    currentHour := 0 }

/-- A forecast response whose `hourly` object is missing. -/
def noHourlyForecast : WeatherResponse :=
  { current_weather := some sampleCW, hourly := none }

/-- A network whose forecast response has no `hourly` object. -/
def noHourlyNet : Net :=
  { geo := Except.ok sampleGeo,
    forecast := fun _ _ => Except.ok noHourlyForecast, currentHour := 0 }

/-- Hourly arrays with a single entry (and a hole in the second array). -/
def shortHourly : Hourly :=
  { relative_humidity_2m := [some 80], precipitation_probability := [none] }

/-- A forecast response whose hourly arrays are shorter than the current
hour index. -/
def shortForecast : WeatherResponse :=
  { current_weather := some sampleCW, hourly := some shortHourly }

/-- A network serving `shortForecast` at hour 5, past both arrays. -/
def shortNet : Net :=
  { geo := Except.ok sampleGeo, forecast := fun _ _ => Except.ok shortForecast,
    currentHour := 5 }

/-- A snapshot from a previous successful lookup. -/
def staleSnapshot : WeatherData :=
  { city := "Paris", country := "France", temperature := 20, weatherCode := 3,
    windSpeed := 10, humidity := 80, precipitation := 10, isDay := 1 }

/-- A state holding a previous snapshot while the input field has been
blanked to whitespace. -/
def staleState : AppState :=
  { city := "   ", weather := some staleSnapshot, error := "",
    loading := false, isCelsius := true }

/-- A state whose input carries a leading space before the city name. -/
def paddedState : AppState :=
  { city := " Paris", weather := none, error := "", loading := false,
    isCelsius := true }

/-- The condition-code enumeration exactly as listed in §6 of the
specification ("0 Clear sky, … 99 Thunderstorm with heavy hail"), written
from the spec's words for comparison with the source table. -/
def spec6Table : List (Int × String) :=
  [(0, "Clear sky"),
   (1, "Mainly clear"),
   (2, "Partly cloudy"),
   (3, "Overcast"),
   (45, "Fog"),
   (48, "Depositing rime fog"),
   (51, "Light drizzle"),
   (53, "Moderate drizzle"),
   (55, "Dense drizzle"),
   (61, "Slight rain"),
   (63, "Moderate rain"),
   (65, "Heavy rain"),
   (71, "Slight snow fall"),
   (73, "Moderate snow fall"),
   (75, "Heavy snow fall"),
   (80, "Slight rain showers"),
   (81, "Moderate rain showers"),
   (82, "Violent rain showers"),
   (95, "Thunderstorm"),
   (96, "Thunderstorm with hail"),
   (99, "Thunderstorm with heavy hail")]

/-! ### General lemmas -/

theorem lookup_eq_none_of_not_mem_keys (l : List (Int × String)) (k : Int)
    (h : k ∉ l.map Prod.fst) : l.lookup k = none := by
  induction l with
  | nil => rfl
  | cons p t ih =>
      obtain ⟨a, b⟩ := p
      simp only [List.map_cons, List.mem_cons] at h
      push_neg at h
      have hk : (k == a) = false := beq_eq_false_iff_ne.mpr h.1
      simp [List.lookup, hk, ih h.2]

theorem jsRound_le (x : Rat) : (jsRound x : Rat) ≤ x + 1 / 2 :=
  Rat.le_floor.mp le_rfl

theorem lt_jsRound_add_one (x : Rat) : x + 1 / 2 < (jsRound x : Rat) + 1 := by
  by_contra h
  push_neg at h
  have h2 : ((jsRound x + 1 : Int) : Rat) ≤ x + 1 / 2 := by push_cast; linarith
  have h3 := Rat.le_floor.mpr h2
  unfold jsRound at h3
  omega

theorem jsRound_near (x : Rat) : |(jsRound x : Rat) - x| ≤ 1 / 2 := by
  have h1 := jsRound_le x
  have h2 := lt_jsRound_add_one x
  rw [abs_le]
  constructor <;> linarith

theorem hourlyAt_out_of_range (xs : List (Option Rat)) (h : Nat)
    (hle : xs.length ≤ h) : hourlyAt xs h = none := by
  unfold hourlyAt
  rw [List.get?_eq_none.mpr hle]
  rfl

/-! ### Claims -/

/-- C2 counterexample: the closed condition-code table has 21 entries, not
the 23 entries the claim (via §4.2) asserts. -/
theorem weatherCodes_has_21_entries :
    weatherCodes.length = 21 ∧ weatherCodes.length ≠ 23 := by
  decide

/-- C2 (amended): the program's code-to-label table is exactly the
enumeration listed in §6 (21 entries); `getWeatherCode` returns the mapped
label on every code of the table and `"Unknown"` on every integer code
outside it. -/
theorem getWeatherCode_matches_spec :
    weatherCodes = spec6Table ∧
    (∀ p ∈ weatherCodes, getWeatherCode p.1 = p.2) ∧
    ∀ c : Int, c ∉ weatherCodes.map Prod.fst → getWeatherCode c = "Unknown" := by
  refine ⟨rfl, by decide, fun c h => ?_⟩
  simp [getWeatherCode, lookup_eq_none_of_not_mem_keys _ _ h]

/-- C2 witness: a mapped code resolves to its label, an unmapped one to
`"Unknown"`. -/
theorem getWeatherCode_matches_spec_witness :
    getWeatherCode 3 = "Overcast" ∧ getWeatherCode 42 = "Unknown" :=
  ⟨getWeatherCode_matches_spec.2.1 (3, "Overcast") (by decide),
   getWeatherCode_matches_spec.2.2 42 (by decide)⟩

/-- C8: `convertTemp` is pure in the Celsius value and the flag: with the
flag set it is the identity, with the flag cleared it is exactly
`C × 9/5 + 32`, and the displayed value `jsRound (convertTemp …)` is within
half a degree of the converted value (nearest whole degree). -/
theorem convertTemp_pure (t : Rat) :
    convertTemp true t = t ∧
    convertTemp false t = t * 9 / 5 + 32 ∧
    |(jsRound (convertTemp false t) : Rat) - convertTemp false t| ≤ 1 / 2 ∧
    |(jsRound (convertTemp true t) : Rat) - convertTemp true t| ≤ 1 / 2 :=
  ⟨rfl, rfl, jsRound_near _, jsRound_near _⟩

/-- C9: a unit-toggle click changes only the `isCelsius` cell; snapshot,
error message, loading flag and input text are untouched, and the rendered
temperature is recomputed from the stored Celsius value at render time. -/
theorem setCelsius_frame (b : Bool) (st : AppState) :
    (setCelsius b st).weather = st.weather ∧
    (setCelsius b st).error = st.error ∧
    (setCelsius b st).loading = st.loading ∧
    (setCelsius b st).city = st.city ∧
    (setCelsius b st).isCelsius = b ∧
    ∀ w : WeatherData, displayedTemp (setCelsius b st).isCelsius w =
      jsRound (convertTemp b w.temperature) :=
  ⟨rfl, rfl, rfl, rfl, rfl, fun _ => rfl⟩

/-- C1: on a successful two-step lookup the stored snapshot's temperature is
the raw upstream `current_weather.temperature`, the forecast request carries
the first geocoding candidate's latitude/longitude, and the value displayed
in Fahrenheit mode is `round(temperature × 9/5 + 32)`. -/
theorem success_snapshot_raw_temperature (st : AppState) (net : Net)
    (g : GeoResponse) (first : GeoResult) (rest : List GeoResult)
    (wd : WeatherResponse) (cw : CurrentWeather) (hobj : Hourly)
    (hne : jsTrim st.city ≠ "")
    (hgeo : net.geo = Except.ok g)
    (hres : g.results = some (first :: rest))
    (hfc : net.forecast first.latitude first.longitude = Except.ok wd)
    (hcw : wd.current_weather = some cw)
    (hh : wd.hourly = some hobj) :
    ∃ w : WeatherData,
      (getWeather st net).final.weather = some w ∧
      w.temperature = cw.temperature ∧
      displayedTemp false w = jsRound (cw.temperature * 9 / 5 + 32) ∧
      (getWeather st net).requests =
        [Request.geocode (geocodeUrl st.city),
         Request.forecast first.latitude first.longitude] := by
  unfold getWeather
  rw [if_neg hne]
  simp only [hgeo, hres, hfc, hcw, hh]
  refine ⟨_, rfl, rfl, rfl, ?_⟩
  first | rfl | trivial

/-- C1 witness: the sample lookup succeeds and the theorem applies to it. -/
theorem success_snapshot_raw_temperature_witness :
    ∃ w : WeatherData,
      (getWeather sampleState sampleNet).final.weather = some w ∧
      w.temperature = sampleCW.temperature ∧
      displayedTemp false w = jsRound (sampleCW.temperature * 9 / 5 + 32) ∧
      (getWeather sampleState sampleNet).requests =
        [Request.geocode (geocodeUrl sampleState.city),
         Request.forecast parisCandidate.latitude parisCandidate.longitude] :=
  success_snapshot_raw_temperature sampleState sampleNet sampleGeo
    parisCandidate [] sampleForecast sampleCW sampleHourly
    (by decide) rfl rfl rfl rfl rfl

/-- C3 counterexample: submitting whitespace-only input while a snapshot from
a previous lookup is stored sets the empty-input message but leaves the
snapshot in place, so the snapshot is not cleared on this failure. -/
theorem empty_input_keeps_snapshot :
    (getWeather staleState sampleNet).final.weather = some staleSnapshot ∧
    (getWeather staleState sampleNet).final.error = emptyInputMsg :=
  ⟨rfl, rfl⟩

/-- C3 (amended): failures of a lookup that passed the input guard (city not
found, fetch error) clear the snapshot — for non-empty trimmed input the run
either ends with an empty error message (success) or with the snapshot
cleared; empty or whitespace-only input leaves the stored snapshot
unchanged. -/
theorem failure_snapshot_clearing (st : AppState) (net : Net) :
    (jsTrim st.city = "" → (getWeather st net).final.weather = st.weather) ∧
    (jsTrim st.city ≠ "" →
      (getWeather st net).final.error = "" ∨
      (getWeather st net).final.weather = none) := by
  constructor
  · intro he
    unfold getWeather
    rw [if_pos he]
  · intro hne
    unfold getWeather
    rw [if_neg hne]
    rcases hg : net.geo with _ | g
    · simp [hg]
    · rcases hr : g.results with _ | l
      · simp [hg, hr]
      · rcases l with _ | ⟨first, rest⟩
        · simp [hg, hr]
        · rcases hf : net.forecast first.latitude first.longitude with _ | wd
          · simp [hg, hr, hf]
          · rcases hh : wd.hourly with _ | hobj
            · simp [hg, hr, hf, hh]
            · rcases hcw : wd.current_weather with _ | cw
              · simp [hg, hr, hf, hh, hcw]
              · simp [hg, hr, hf, hh, hcw]

/-- C3 witness: on an empty geocoding result the snapshot is cleared. -/
theorem failure_snapshot_clearing_witness :
    (getWeather sampleState emptyResultsNet).final.error = "" ∨
    (getWeather sampleState emptyResultsNet).final.weather = none :=
  (failure_snapshot_clearing sampleState emptyResultsNet).2 (by decide)

/-- C4 counterexample: when the forecast response has no `hourly` object the
outcome is the generic fetch error with no snapshot — `0` is not substituted,
contrary to the claim's "including when the hourly data itself is missing". -/
theorem missing_hourly_is_fetch_error :
    (getWeather sampleState noHourlyNet).final.weather = none ∧
    (getWeather sampleState noHourlyNet).final.error = fetchErrorMsg :=
  ⟨rfl, rfl⟩

/-- C4 (amended): when the hourly arrays are present, the "current" humidity
and precipitation are the arrays indexed at the local wall-clock hour (0-23)
with `0` substituted for an out-of-range index or an absent value; a missing
or malformed `hourly` object instead raises an exception that is caught and
yields the generic fetch error (see the counterexample). -/
theorem hourly_index_defaults (st : AppState) (net : Net)
    (g : GeoResponse) (first : GeoResult) (rest : List GeoResult)
    (wd : WeatherResponse) (cw : CurrentWeather) (hobj : Hourly)
    (hne : jsTrim st.city ≠ "")
    (hgeo : net.geo = Except.ok g)
    (hres : g.results = some (first :: rest))
    (hfc : net.forecast first.latitude first.longitude = Except.ok wd)
    (hcw : wd.current_weather = some cw)
    (hh : wd.hourly = some hobj) :
    ∃ w : WeatherData,
      (getWeather st net).final.weather = some w ∧
      w.humidity =
        (hourlyAt hobj.relative_humidity_2m net.currentHour.val).getD 0 ∧
      w.precipitation =
        (hourlyAt hobj.precipitation_probability net.currentHour.val).getD 0 ∧
      (hobj.relative_humidity_2m.length ≤ net.currentHour.val →
        w.humidity = 0) ∧
      (hobj.precipitation_probability.length ≤ net.currentHour.val →
        w.precipitation = 0) ∧
      (hourlyAt hobj.relative_humidity_2m net.currentHour.val = none →
        w.humidity = 0) ∧
      (hourlyAt hobj.precipitation_probability net.currentHour.val = none →
        w.precipitation = 0) := by
  unfold getWeather
  rw [if_neg hne]
  simp only [hgeo, hres, hfc, hcw, hh]
  refine ⟨_, rfl, rfl, rfl, ?_, ?_, ?_, ?_⟩
  · intro hle
    rw [hourlyAt_out_of_range _ _ hle]
    rfl
  · intro hle
    rw [hourlyAt_out_of_range _ _ hle]
    rfl
  · intro hn
    rw [hn]
    rfl
  · intro hn
    rw [hn]
    rfl

/-- C4 witness: at hour 5 against one-entry hourly arrays both values default
to `0`. -/
theorem hourly_index_defaults_witness :
    ∃ w : WeatherData,
      (getWeather sampleState shortNet).final.weather = some w ∧
      w.humidity =
        (hourlyAt shortHourly.relative_humidity_2m
          shortNet.currentHour.val).getD 0 ∧
      w.precipitation =
        (hourlyAt shortHourly.precipitation_probability
          shortNet.currentHour.val).getD 0 ∧
      (shortHourly.relative_humidity_2m.length ≤ shortNet.currentHour.val →
        w.humidity = 0) ∧
      (shortHourly.precipitation_probability.length ≤
          shortNet.currentHour.val → w.precipitation = 0) ∧
      (hourlyAt shortHourly.relative_humidity_2m shortNet.currentHour.val =
          none → w.humidity = 0) ∧
      (hourlyAt shortHourly.precipitation_probability
          shortNet.currentHour.val = none → w.precipitation = 0) :=
  hourly_index_defaults sampleState shortNet sampleGeo parisCandidate []
    shortForecast sampleCW shortHourly (by decide) rfl rfl rfl rfl rfl

/-- C5: submitting empty or whitespace-only input issues no network request,
immediately sets the empty-input message, never raises the loading flag, and
leaves the loading cell as it was. -/
theorem empty_input_no_network (st : AppState) (net : Net)
    (he : jsTrim st.city = "") :
    (getWeather st net).requests = [] ∧
    (getWeather st net).final.error = emptyInputMsg ∧
    (getWeather st net).enteredLoading = false ∧
    (getWeather st net).final.loading = st.loading := by
  unfold getWeather
  rw [if_pos he]
  exact ⟨rfl, rfl, rfl, rfl⟩

/-- C5 witness: a whitespace-only submission. -/
theorem empty_input_no_network_witness :
    (getWeather staleState sampleNet).requests = [] ∧
    (getWeather staleState sampleNet).final.error = emptyInputMsg ∧
    (getWeather staleState sampleNet).enteredLoading = false ∧
    (getWeather staleState sampleNet).final.loading = staleState.loading :=
  empty_input_no_network staleState sampleNet (by decide)

/-- C6: a geocoding response with an absent or empty result list yields the
"City not found!" message, clears the snapshot, lowers the loading flag, and
issues exactly the one geocoding request — no forecast fetch and no retry. -/
theorem empty_geocode_not_found (st : AppState) (net : Net) (g : GeoResponse)
    (hne : jsTrim st.city ≠ "")
    (hgeo : net.geo = Except.ok g)
    (hres : g.results = none ∨ g.results = some []) :
    (getWeather st net).final.error = cityNotFoundMsg ∧
    (getWeather st net).final.weather = none ∧
    (getWeather st net).final.loading = false ∧
    (getWeather st net).requests = [Request.geocode (geocodeUrl st.city)] := by
  unfold getWeather
  rw [if_neg hne]
  rcases hres with h | h <;> simp [hgeo, h]

/-- C6 witness: an empty candidate list for the sample city. -/
theorem empty_geocode_not_found_witness :
    (getWeather sampleState emptyResultsNet).final.error = cityNotFoundMsg ∧
    (getWeather sampleState emptyResultsNet).final.weather = none ∧
    (getWeather sampleState emptyResultsNet).final.loading = false ∧
    (getWeather sampleState emptyResultsNet).requests =
      [Request.geocode (geocodeUrl sampleState.city)] :=
  empty_geocode_not_found sampleState emptyResultsNet { results := some [] }
    (by decide) rfl (Or.inr rfl)

/-- C7: every exception during either network step — a throwing geocoding
fetch, a throwing forecast fetch, or a forecast body whose `current_weather`
or `hourly` object is missing — is caught and collapsed to the single generic
message, with the snapshot cleared and the loading flag lowered. -/
theorem exceptions_collapse_to_generic_error (st : AppState) (net : Net)
    (hne : jsTrim st.city ≠ "") :
    (net.geo = Except.error () →
      (getWeather st net).final.error = fetchErrorMsg ∧
      (getWeather st net).final.weather = none ∧
      (getWeather st net).final.loading = false) ∧
    (∀ (g : GeoResponse) (first : GeoResult) (rest : List GeoResult),
      net.geo = Except.ok g → g.results = some (first :: rest) →
      net.forecast first.latitude first.longitude = Except.error () →
      (getWeather st net).final.error = fetchErrorMsg ∧
      (getWeather st net).final.weather = none ∧
      (getWeather st net).final.loading = false) ∧
    (∀ (g : GeoResponse) (first : GeoResult) (rest : List GeoResult)
        (wd : WeatherResponse),
      net.geo = Except.ok g → g.results = some (first :: rest) →
      net.forecast first.latitude first.longitude = Except.ok wd →
      (wd.current_weather = none ∨ wd.hourly = none) →
      (getWeather st net).final.error = fetchErrorMsg ∧
      (getWeather st net).final.weather = none ∧
      (getWeather st net).final.loading = false) := by
  refine ⟨?_, ?_, ?_⟩
  · intro hg
    unfold getWeather
    rw [if_neg hne]
    simp [hg]
  · intro g first rest hg hr hf
    unfold getWeather
    rw [if_neg hne]
    simp [hg, hr, hf]
  · intro g first rest wd hg hr hf hbad
    unfold getWeather
    rw [if_neg hne]
    rcases hbad with hcw | hh
    · rcases hh : wd.hourly with _ | hobj <;> simp [hg, hr, hf, hcw, hh]
    · simp [hg, hr, hf, hh]

/-- C7 witness: a throwing geocoding fetch. -/
theorem exceptions_collapse_to_generic_error_witness :
    (getWeather sampleState failingNet).final.error = fetchErrorMsg ∧
    (getWeather sampleState failingNet).final.weather = none ∧
    (getWeather sampleState failingNet).final.loading = false :=
  (exceptions_collapse_to_generic_error sampleState failingNet (by decide)).1
    rfl

/-- C10: for every non-empty (after trimming) input the geocoding request is
built from the raw, URL-encoded input string `st.city` — not from the
trimmed string, which is used only for the emptiness check. -/
theorem geocode_request_raw_city (st : AppState) (net : Net)
    (hne : jsTrim st.city ≠ "") :
    (getWeather st net).requests.head? =
      some (Request.geocode (geocodeUrl st.city)) := by
  unfold getWeather
  rw [if_neg hne]
  rcases hg : net.geo with _ | g
  · simp [hg]
  · rcases hr : g.results with _ | l
    · simp [hg, hr]
    · rcases l with _ | ⟨first, rest⟩
      · simp [hg, hr]
      · rcases hf : net.forecast first.latitude first.longitude with _ | wd
        · simp [hg, hr, hf]
        · rcases hh : wd.hourly with _ | hobj
          · simp [hg, hr, hf, hh]
          · rcases hcw : wd.current_weather with _ | cw
            · simp [hg, hr, hf, hh, hcw]
            · simp [hg, hr, hf, hh, hcw]

/-- C10 witness: an input with a leading space keeps the space in the
request URL, percent-encoded. -/
theorem geocode_request_raw_city_witness :
    (getWeather paddedState sampleNet).requests.head? =
      some (Request.geocode (geocodeUrl paddedState.city)) ∧
    geocodeUrl paddedState.city =
      "https://geocoding-api.open-meteo.com/v1/search?name=%20Paris" :=
  ⟨geocode_request_raw_city paddedState sampleNet (by decide), by decide⟩

end WeatherApp
